import Mathlib

/-!
Verification of the route-access gate of the edufam-admin-app repository.

The embedding below translates the decision logic of
src/components/common/ProtectedRoute.tsx (the Access Gate),
src/components/AppContent.tsx and src/hooks/useAdminSchoolsData.ts into
executable Lean definitions.  JavaScript truthiness of optional string
fields (absent or empty string is falsy) is modelled by the `truthy`
helper, and the string-containment test `String.prototype.includes` by
`containsSubstr`.
-/

namespace Edufam

/-- Truthiness of an optional string value in JavaScript: an absent value
(`undefined`/`null`) and the empty string are falsy, every other string is
truthy. -/
def truthy : Option String → Bool
  | none => false
  | some s => s ≠ ""

/-- Does the pattern occur at the head of the character list?  Helper for
`containsSubstr`. -/
def matchesAt : List Char → List Char → Bool
  | [], _ => true
  | _ :: _, [] => false
  | p :: ps, c :: cs => p == c && matchesAt ps cs

/-- Does the pattern occur anywhere in the character list?  Helper for
`containsSubstr`. -/
def subOccurs : List Char → List Char → Bool
  | pat, [] => matchesAt pat []
  | pat, c :: cs => matchesAt pat (c :: cs) || subOccurs pat cs

/-- JavaScript `s.includes(pat)`: substring containment. -/
def containsSubstr (s pat : String) : Bool :=
  subOccurs pat.data s.data

/-- Principal snapshot read by the gate: the role tag, the school
assignment and the account-status metadata field
(`user.user_metadata?.status`), each possibly absent. -/
structure Principal where
  role : Option String
  school_id : Option String
  user_metadata_status : Option String
deriving DecidableEq, Repr

/-- Snapshot of the reactive Authentication Service accessor consumed by
the gate: `{ user, isLoading, error }` from `useAuth()`. -/
structure AuthState where
  isLoading : Bool
  error : Option String
  user : Option Principal
deriving DecidableEq, Repr

/-- Route requirement: the props of the ProtectedRoute component, with the
source defaults `allowedRoles = []` and `requireSchoolAssignment = false`
already applied by the caller. -/
structure RouteRequirement where
  allowedRoles : List String
  requireSchoolAssignment : Bool
deriving DecidableEq, Repr

/-- Access decision: which of the mutually exclusive render/redirect
outcomes of ProtectedRoute is produced. -/
inductive Decision where
  | loading
  | deactivated
  | authError (detail : String)
  | redirectTo (path : String)
  | roleNotConfigured
  | roleNotPermitted (actual : String) (required : List String)
  | schoolAssignmentRequired
  | allow
deriving DecidableEq, Repr

/-- Classification of an authentication error message as indicating
account deactivation, from ProtectedRoute.tsx line 49:
`error.includes("deactivated") || error.includes("inactive")`. -/
def errIndicatesDeactivation (e : String) : Bool :=
  containsSubstr e "deactivated" || containsSubstr e "inactive"

/-- The Access Gate: the decision chain of ProtectedRoute.tsx lines
42-192.  Each branch mirrors one `if`/`return` of the source, in source
order: loading, truthy error (classified into deactivated vs generic
authentication error), absent user (redirect to "/"), inactive account
status, falsy role, allowed-roles check, school-assignment check with the
hard-coded edufam_admin exemption, allow. -/
def ProtectedRoute (auth : AuthState) (req : RouteRequirement) : Decision :=
  if auth.isLoading then .loading
  else if truthy auth.error then
    let e := auth.error.getD ""
    if errIndicatesDeactivation e then .deactivated else .authError e
  else
    match auth.user with
    | none => .redirectTo "/"
    | some u =>
      if u.user_metadata_status = some "inactive" then .deactivated
      else if !truthy u.role then .roleNotConfigured
      else
        let r := u.role.getD ""
        if req.allowedRoles.length > 0 && !req.allowedRoles.contains r then
          .roleNotPermitted r req.allowedRoles
        else if req.requireSchoolAssignment && !truthy u.school_id
                && !(["edufam_admin"].contains r) then
          .schoolAssignmentRequired
        else .allow

/-- Role of the current principal as consulted by rules 6 and 7 of the
gate, defaulting to the empty string when no principal or role is
present (those cases are already handled by earlier rules). -/
def roleOf (a : AuthState) : String :=
  (a.user.bind Principal.role).getD ""

/-- One rule of the gate presented as a guard/outcome pair over the full
input, for stating the first-match-wins evaluation order. -/
structure GateRule where
  cond : AuthState → RouteRequirement → Bool
  out : AuthState → RouteRequirement → Decision

/-- The seven guarded rules of ProtectedRoute in source order; the
default outcome (rule 8) of the chain is Allow. -/
def gateRules : List GateRule :=
  [ ⟨fun a _ => a.isLoading, fun _ _ => .loading⟩,
    ⟨fun a _ => truthy a.error,
     fun a _ =>
       let e := a.error.getD ""
       if errIndicatesDeactivation e then .deactivated else .authError e⟩,
    ⟨fun a _ => a.user.isNone, fun _ _ => .redirectTo "/"⟩,
    ⟨fun a _ => (a.user.bind Principal.user_metadata_status) = some "inactive",
     fun _ _ => .deactivated⟩,
    ⟨fun a _ => !truthy (a.user.bind Principal.role),
     fun _ _ => .roleNotConfigured⟩,
    ⟨fun a r => r.allowedRoles.length > 0 && !r.allowedRoles.contains (roleOf a),
     fun a r => .roleNotPermitted (roleOf a) r.allowedRoles⟩,
    ⟨fun a r => r.requireSchoolAssignment && !truthy (a.user.bind Principal.school_id)
                && !(["edufam_admin"].contains (roleOf a)),
     fun _ _ => .schoolAssignmentRequired⟩ ]

/-- First-matching-rule evaluation of a rule list: the outcome of the
first rule whose condition holds, and Allow when none holds. -/
def firstMatch : List GateRule → AuthState → RouteRequirement → Decision
  | [], _, _ => .allow
  | rule :: rest, a, r => if rule.cond a r then rule.out a r else firstMatch rest a r

/-- C1: for every principal and route requirement the gate's decision
equals first-matching-rule evaluation of the seven rules in the fixed
source order (loading, authentication error, absent principal, inactive
status, missing role, allowed-roles, school-assignment) with default
outcome Allow. -/
theorem gate_first_match_order (a : AuthState) (r : RouteRequirement) :
    ProtectedRoute a r = firstMatch gateRules a r := by
  obtain ⟨l, e, u⟩ := a
  cases l <;> cases u <;>
    simp [ProtectedRoute, firstMatch, gateRules, roleOf, Option.bind]

/-- C2 counterexample: the empty string is an Authentication Service error
string (it contains neither "deactivated" nor "inactive", so the claim
predicts the generic authentication-error denial), yet the gate treats a
falsy error as no error at all: with no principal present it redirects to
"/" instead. -/
theorem auth_error_empty_cex :
    ProtectedRoute ⟨false, some "", none⟩ ⟨[], false⟩ = .redirectTo "/" ∧
      ProtectedRoute ⟨false, some "", none⟩ ⟨[], false⟩ ≠ .authError "" ∧
      errIndicatesDeactivation "" = false := by
  refine ⟨rfl, by decide, rfl⟩

/-- C2 (amended to non-empty error strings): when authentication is not
loading and the Authentication Service reports a non-empty error string,
the gate's decision depends only on that string — deactivated-account
view when it contains "deactivated" or "inactive", otherwise the
authentication-error denial carrying the string — regardless of the
principal and the route requirement. -/
theorem auth_error_classified (a : AuthState) (r : RouteRequirement) (e : String)
    (hl : a.isLoading = false) (he : a.error = some e) (hne : e ≠ "") :
    ProtectedRoute a r =
      (if errIndicatesDeactivation e then .deactivated else .authError e) := by
  obtain ⟨l, err, u⟩ := a
  cases hl
  cases he
  simp [ProtectedRoute, truthy, hne]

/-- C2 witness: a generic error string produces the authentication-error
denial carrying the string. -/
theorem auth_error_classified_witness :
    ProtectedRoute ⟨false, some "boom", none⟩ ⟨[], false⟩ = .authError "boom" := by
  have h := auth_error_classified ⟨false, some "boom", none⟩ ⟨[], false⟩ "boom"
    rfl rfl (by decide)
  simpa using h

/-- C3: a principal whose role is "edufam_admin" that reaches rule 7
(authentication resolved without error, account active, role passes the
allowed-roles check) is allowed, for every value of its school assignment
and even under requireSchoolAssignment = true. -/
theorem edufam_admin_school_exempt (a : AuthState) (r : RouteRequirement) (u : Principal)
    (hl : a.isLoading = false) (he : a.error = none) (hu : a.user = some u)
    (hs : u.user_metadata_status ≠ some "inactive")
    (hrole : u.role = some "edufam_admin")
    (h6 : r.allowedRoles = [] ∨ "edufam_admin" ∈ r.allowedRoles)
    (_hreq : r.requireSchoolAssignment = true) :
    ProtectedRoute a r = .allow := by
  obtain ⟨l, err, usr⟩ := a
  cases hl
  cases he
  cases hu
  simp only [ProtectedRoute, truthy]
  rcases h6 with h6 | h6 <;>
    simp [hs, hrole, h6, List.elem_iff]

/-- C3 witness: scenario E of the specification — edufam_admin with no
school assignment under a requirement demanding school assignment is
allowed. -/
theorem edufam_admin_school_exempt_witness :
    ProtectedRoute ⟨false, none, some ⟨some "edufam_admin", none, none⟩⟩ ⟨[], true⟩
      = .allow :=
  edufam_admin_school_exempt _ _ ⟨some "edufam_admin", none, none⟩
    rfl rfl rfl (by decide) rfl (Or.inl rfl) rfl

/-- C4: under a requirement whose allowedRoles list is empty the gate
never produces the role-not-permitted denial, for any authentication
state. -/
theorem empty_allowed_roles_never_denies (a : AuthState) (r : RouteRequirement)
    (hr : r.allowedRoles = []) (actual : String) (required : List String) :
    ProtectedRoute a r ≠ .roleNotPermitted actual required := by
  obtain ⟨l, e, u⟩ := a
  obtain ⟨ar, rs⟩ := r
  cases hr
  cases l <;> cases u <;>
    simp [ProtectedRoute] <;> split_ifs <;> simp

/-- C4 witness: a teacher under an empty allowedRoles requirement is not
denied with role-not-permitted. -/
theorem empty_allowed_roles_never_denies_witness :
    ProtectedRoute ⟨false, none, some ⟨some "teacher", none, none⟩⟩ ⟨[], false⟩
      ≠ .roleNotPermitted "teacher" [] :=
  empty_allowed_roles_never_denies _ _ rfl "teacher" []

/-- Fixed closed set of role tags of the data model.  Modelled from the
spec: the UserRole enumeration of src/types/user is not part of the
corpus; the spec's data model and the role switch in the sidebar header
component enumerate exactly these six tags. -/
def validRoles : List String :=
  ["school_director", "principal", "teacher", "parent",
   "finance_officer", "edufam_admin"]

/-- C5: exact, case-sensitive role matching — a principal bearing a
(truthy) role string outside the fixed role set, reaching rule 6 under a
requirement whose allowedRoles list is non-empty and drawn from the fixed
role set, never matches the list and is denied with role-not-permitted
carrying the actual role and the required list. -/
theorem unknown_role_fails_rule6 (a : AuthState) (r : RouteRequirement)
    (u : Principal) (ro : String)
    (hl : a.isLoading = false) (he : a.error = none) (hu : a.user = some u)
    (hs : u.user_metadata_status ≠ some "inactive")
    (hrole : u.role = some ro) (hne : ro ≠ "")
    (hout : ro ∉ validRoles)
    (hnonempty : r.allowedRoles ≠ [])
    (hdrawn : ∀ x ∈ r.allowedRoles, x ∈ validRoles) :
    ro ∉ r.allowedRoles ∧
      ProtectedRoute a r = .roleNotPermitted ro r.allowedRoles := by
  have hmem : ro ∉ r.allowedRoles := fun hm => hout (hdrawn ro hm)
  refine ⟨hmem, ?_⟩
  obtain ⟨l, err, usr⟩ := a
  cases hl
  cases he
  cases hu
  have hlen : 0 < r.allowedRoles.length := List.length_pos.mpr hnonempty
  simp [ProtectedRoute, truthy, hs, hrole, hne, hlen, List.elem_iff, hmem]

/-- C5 witness: the case variant "Teacher" is outside the fixed role set
and is denied under the allowedRoles list consisting of "teacher" and
"principal". -/
theorem unknown_role_fails_rule6_witness :
    "Teacher" ∉ (["teacher", "principal"] : List String) ∧
      ProtectedRoute ⟨false, none, some ⟨some "Teacher", none, none⟩⟩
        ⟨["teacher", "principal"], false⟩
        = .roleNotPermitted "Teacher" ["teacher", "principal"] :=
  unknown_role_fails_rule6 ⟨false, none, some ⟨some "Teacher", none, none⟩⟩
    ⟨["teacher", "principal"], false⟩ ⟨some "Teacher", none, none⟩ "Teacher"
    rfl rfl rfl (by decide) rfl (by decide) (by decide) (by decide) (by decide)

/-- C6: a principal whose account-status metadata equals "inactive"
yields the deactivated-account view once authentication has resolved
without error, for every route requirement (allowedRoles and
requireSchoolAssignment have no effect on the outcome). -/
theorem inactive_status_deactivated (a : AuthState) (r : RouteRequirement)
    (u : Principal)
    (hl : a.isLoading = false) (he : a.error = none) (hu : a.user = some u)
    (hs : u.user_metadata_status = some "inactive") :
    ProtectedRoute a r = .deactivated := by
  obtain ⟨l, err, usr⟩ := a
  cases hl
  cases he
  cases hu
  simp [ProtectedRoute, truthy, hs]

/-- C6 witness: scenario B of the specification — an inactive teacher is
shown the deactivated-account view. -/
theorem inactive_status_deactivated_witness :
    ProtectedRoute ⟨false, none, some ⟨some "teacher", none, some "inactive"⟩⟩
      ⟨["teacher"], true⟩ = .deactivated :=
  inactive_status_deactivated _ _ ⟨some "teacher", none, some "inactive"⟩
    rfl rfl rfl rfl

/-- C7: when authentication has resolved without error and no principal
is present, the gate redirects to "/", for every route requirement. -/
theorem no_user_redirects_to_login (a : AuthState) (r : RouteRequirement)
    (hl : a.isLoading = false) (he : a.error = none) (hu : a.user = none) :
    ProtectedRoute a r = .redirectTo "/" := by
  obtain ⟨l, err, usr⟩ := a
  cases hl
  cases he
  cases hu
  rfl

/-- C7 witness: scenario A of the specification at a concrete
requirement. -/
theorem no_user_redirects_to_login_witness :
    ProtectedRoute ⟨false, none, none⟩ ⟨["teacher"], true⟩ = .redirectTo "/" :=
  no_user_redirects_to_login _ _ rfl rfl rfl

/-- C8: gate evaluation is a deterministic pure function of the
(principal snapshot, requirement snapshot) pair — any two evaluations
with equal inputs produce equal decisions; no other state enters the
evaluation, since ProtectedRoute is a function of exactly these two
arguments. -/
theorem gate_deterministic (a₁ a₂ : AuthState) (r₁ r₂ : RouteRequirement)
    (ha : a₁ = a₂) (hr : r₁ = r₂) :
    ProtectedRoute a₁ r₁ = ProtectedRoute a₂ r₂ := by
  rw [ha, hr]

/-- C8 witness: two evaluations at one concrete input coincide. -/
theorem gate_deterministic_witness :
    ProtectedRoute ⟨false, none, some ⟨some "parent", some "s1", none⟩⟩ ⟨[], false⟩
      = ProtectedRoute ⟨false, none, some ⟨some "parent", some "s1", none⟩⟩ ⟨[], false⟩ :=
  gate_deterministic _ _ _ _ rfl rfl

/-- Database connection status kept in AppContent local state. -/
structure DbStatus where
  connected : Bool
  error : Option String
deriving DecidableEq, Repr

/-- Result of the RouteGuard access check kept in AppContent local
state. -/
structure AccessCheck where
  hasAccess : Bool
  redirectTo : Option String
  error : Option String
deriving DecidableEq, Repr

/-- Snapshot of the state AppContent.tsx reads when rendering: the auth
accessor fields plus its local dbStatus, isCheckingDb and accessCheck
state. -/
structure AppState where
  isInitialized : Bool
  authLoading : Bool
  isCheckingDb : Bool
  dbStatus : Option DbStatus
  authError : Option String
  user : Option Principal
  accessCheck : Option AccessCheck
deriving DecidableEq, Repr

/-- View rendered by AppContent.  The loading screen is rendered on three
source paths: initial loading (line 102), absent user (line 148) and
access denied with a non-unauthorized redirect target (line 181); all
three map to the loading constructor, as the source renders the same
component. -/
inductive AppView where
  | loading
  | dbError (detail : String)
  | deactivated
  | authError (detail : String)
  | roleConfigError
  | unauthorized
  | mainApp
deriving DecidableEq, Repr

/-- Render logic of AppContent.tsx lines 102-208, branch by branch in
source order: loading, database connection error, truthy auth error
(classified as in the gate), absent user (loading screen, no redirect),
inactive account status, falsy role, denied access check, main
application. -/
def AppContent (s : AppState) : AppView :=
  if !s.isInitialized || s.authLoading || s.isCheckingDb then .loading
  else if (match s.dbStatus with | some d => !d.connected | none => false) then
    .dbError ((s.dbStatus.bind DbStatus.error).getD "Connection failed")
  else if truthy s.authError then
    let e := s.authError.getD ""
    if errIndicatesDeactivation e then .deactivated else .authError e
  else
    match s.user with
    | none => .loading
    | some u =>
      if u.user_metadata_status = some "inactive" then .deactivated
      else if !truthy u.role then .roleConfigError
      else
        match s.accessCheck with
        | some ac =>
          if !ac.hasAccess then
            if ac.redirectTo = some "/unauthorized" then .unauthorized
            else .loading
          else .mainApp
        | none => .mainApp

/-- Navigation performed by the checkRouteAccess effect of AppContent.tsx
lines 41-65, parameterized by the external RouteGuard check: with no user
the access check is cleared and no navigation happens; with a user,
navigation to the redirect target happens exactly when access is denied,
a redirect target exists and it is not "/unauthorized". -/
def checkRouteAccessNav (user : Option Principal)
    (checkAccess : Principal → AccessCheck) : Option String :=
  match user with
  | none => none
  | some u =>
    let a := checkAccess u
    if !a.hasAccess then
      match a.redirectTo with
      | some t => if t = "/unauthorized" then none else some t
      | none => none
    else none

/-- C9: in AppContent, when authentication has resolved (initialized, not
loading, database connected) without error and no principal is present,
the component renders the loading view and its route-access effect
performs no navigation — in particular no redirect to "/" — whatever the
external RouteGuard check would answer. -/
theorem appcontent_no_user_loads (s : AppState) (ca : Principal → AccessCheck)
    (hi : s.isInitialized = true) (hl : s.authLoading = false)
    (hc : s.isCheckingDb = false)
    (hdb : ∀ d, s.dbStatus = some d → d.connected = true)
    (he : s.authError = none) (hu : s.user = none) :
    AppContent s = .loading ∧ checkRouteAccessNav s.user ca = none := by
  obtain ⟨ini, al, cdb, db, ae, usr, ac⟩ := s
  cases hi
  cases hl
  cases hc
  cases he
  cases hu
  refine ⟨?_, rfl⟩
  match db, hdb with
  | none, _ => rfl
  | some d, hdb =>
    have hcon : d.connected = true := hdb d rfl
    simp [AppContent, truthy, hcon]

/-- C9 witness: a concrete resolved state with no user renders the
loading view and navigates nowhere. -/
theorem appcontent_no_user_loads_witness :
    AppContent ⟨true, false, false, some ⟨true, none⟩, none, none, none⟩ = .loading ∧
      checkRouteAccessNav none (fun _ => ⟨false, some "/", none⟩) = none :=
  appcontent_no_user_loads ⟨true, false, false, some ⟨true, none⟩, none, none, none⟩
    (fun _ => ⟨false, some "/", none⟩) rfl rfl rfl
    (fun d hd => by cases hd; rfl) rfl rfl

/-- School record returned by the get_admin_schools_data remote
procedure, restricted to the fields the validation reads: the id field,
possibly absent or empty. -/
structure SchoolRec where
  id : Option String
  name : Option String
deriving DecidableEq, Repr

/-- Shape of the data field of the remote procedure response: an array
whose elements may each be null, or any non-array value. -/
inductive RpcData where
  | arr (xs : List (Option SchoolRec))
  | nonArray
deriving DecidableEq, Repr

/-- Validation predicate of useAdminSchoolsData.ts lines 53-59: a school
element is kept unless it is null or its id field is falsy. -/
def validSchool : Option SchoolRec → Bool
  | none => false
  | some s => truthy s.id

/-- Response normalization of useAdminSchoolsData.ts lines 49-62: a
non-array response becomes the empty array, then elements failing
validSchool are filtered out. -/
def validateSchools (data : RpcData) : List (Option SchoolRec) :=
  let schools := match data with | .arr xs => xs | .nonArray => []
  schools.filter validSchool

/-- C10: a successful useAdminSchoolsData fetch returns an array in which
every element is non-null and has a truthy id — a non-array response
yields the empty array, and elements lacking an id are filtered out. -/
theorem admin_schools_validated (d : RpcData) :
    (d = .nonArray → validateSchools d = []) ∧
      ∀ s ∈ validateSchools d, ∃ rec, s = some rec ∧ truthy rec.id = true := by
  constructor
  · rintro rfl
    rfl
  · intro s hs
    have hv : validSchool s = true := List.of_mem_filter hs
    match s with
    | none => simp [validSchool] at hv
    | some rec => exact ⟨rec, rfl, hv⟩

/-- C10 witness: a concrete non-array response yields the empty array. -/
theorem admin_schools_validated_witness :
    validateSchools .nonArray = [] :=
  (admin_schools_validated .nonArray).1 rfl

end Edufam
